import Mathlib

/-!
Verification of the dual-transport SDK client (projects, shares, webhooks
endpoints) against its specification. The endpoint files are embedded
directly from the source; the dispatch engine (Endpoint/Client/transports),
whose source is not part of the three endpoint files, is modelled from the
specification where a claim depends on it, and each such definition says so
in its doc comment.

Machine integers are modelled as `Nat` reduced modulo 2^32 where the
algorithm requires 32-bit words; byte strings are `List Nat` with entries
below 256.
-/

namespace AbstractSdk

/-! ## SHA-256 (semantics of the js-sha256 dependency used by Webhooks.verify) -/

/-- Reduce to a 32-bit word. -/
def w32 (n : Nat) : Nat := n % 4294967296

/-- Right rotation of a 32-bit word by `b` bits. -/
def rotr (b x : Nat) : Nat := w32 ((x >>> b) ||| (x <<< (32 - b)))

/-- Bitwise complement of a 32-bit word. -/
def not32 (x : Nat) : Nat := x ^^^ 0xffffffff

def ch (x y z : Nat) : Nat := (x &&& y) ^^^ (not32 x &&& z)

def maj (x y z : Nat) : Nat := (x &&& y) ^^^ (x &&& z) ^^^ (y &&& z)

def bigSigma0 (x : Nat) : Nat := rotr 2 x ^^^ rotr 13 x ^^^ rotr 22 x

def bigSigma1 (x : Nat) : Nat := rotr 6 x ^^^ rotr 11 x ^^^ rotr 25 x

def smallSigma0 (x : Nat) : Nat := rotr 7 x ^^^ rotr 18 x ^^^ (x >>> 3)

def smallSigma1 (x : Nat) : Nat := rotr 17 x ^^^ rotr 19 x ^^^ (x >>> 10)

/-- The 64 SHA-256 round constants, written in decimal. -/
def roundConstants : List Nat :=
  [1116352408, 1899447441, 3049323471, 3921009573, 961987163, 1508970993,
   2453635748, 2870763221, 3624381080, 310598401, 607225278, 1426881987,
   1925078388, 2162078206, 2614888103, 3248222580, 3835390401, 4022224774,
   264347078, 604807628, 770255983, 1249150122, 1555081692, 1996064986,
   2554220882, 2821834349, 2952996808, 3210313671, 3336571891, 3584528711,
   113926993, 338241895, 666307205, 773529912, 1294757372, 1396182291,
   1695183700, 1986661051, 2177026350, 2456956037, 2730485921, 2820302411,
   3259730800, 3345764771, 3516065817, 3600352804, 4094571909, 275423344,
   430227734, 506948616, 659060556, 883997877, 958139571, 1322822218,
   1537002063, 1747873779, 1955562222, 2024104815, 2227730452, 2361852424,
   2428436474, 2756734187, 3204031479, 3329325298]

/-- Working state of the compression function: eight 32-bit words. -/
structure Hash8 where
  a : Nat
  b : Nat
  c : Nat
  d : Nat
  e : Nat
  f : Nat
  g : Nat
  h : Nat
deriving Repr, DecidableEq

/-- SHA-256 initial hash value, written in decimal. -/
def initH : Hash8 :=
  ⟨1779033703, 3144134277, 1013904242, 2773480762,
   1359893119, 2600822924, 528734635, 1541459225⟩

/-- Append the length field and the mandatory padding to a byte message. -/
def pad (msg : List Nat) : List Nat :=
  let bitLen := 8 * msg.length
  let zeros := (64 - ((msg.length + 9) % 64)) % 64
  msg ++ [0x80] ++ List.replicate zeros 0 ++
    (List.range 8).map (fun i => (bitLen >>> (8 * (7 - i))) % 256)

/-- Group four big-endian bytes into one 32-bit word, across a list. -/
def bytesToWords : List Nat → List Nat
  | b0 :: b1 :: b2 :: b3 :: rest =>
      (((b0 * 256 + b1) * 256 + b2) * 256 + b3) :: bytesToWords rest
  | _ => []

/-- Split a byte list into 64-byte blocks. The fuel argument is the list
length, so the function is structurally total. -/
def chunksAux : Nat → List Nat → List (List Nat)
  | _, [] => []
  | 0, _ => []
  | fuel + 1, xs => xs.take 64 :: chunksAux fuel (xs.drop 64)

def chunks64 (xs : List Nat) : List (List Nat) := chunksAux xs.length xs

/-- Extend the sixteen words of one block to the 64-entry message schedule. -/
def schedule (block : List Nat) : List Nat :=
  let w := (List.range 48).foldl
    (fun w i =>
      let x := w32 (smallSigma1 (w.getD (i + 14) 0) + w.getD (i + 9) 0 +
                    smallSigma0 (w.getD (i + 1) 0) + w.getD i 0)
      w.push x)
    (bytesToWords block).toArray
  w.toList

/-- One compression round; `kw` is the round constant already added to the
schedule word. -/
def round (s : Hash8) (kw : Nat) : Hash8 :=
  let t1 := w32 (s.h + bigSigma1 s.e + ch s.e s.f s.g + kw)
  let t2 := w32 (bigSigma0 s.a + maj s.a s.b s.c)
  ⟨w32 (t1 + t2), s.a, s.b, s.c, w32 (s.d + t1), s.e, s.f, s.g⟩

/-- Compress one 64-byte block into the running digest. -/
def compressBlock (h0 : Hash8) (block : List Nat) : Hash8 :=
  let kw := List.zipWith (fun k x => w32 (k + x)) roundConstants (schedule block)
  let s := kw.foldl round h0
  ⟨w32 (h0.a + s.a), w32 (h0.b + s.b), w32 (h0.c + s.c), w32 (h0.d + s.d),
   w32 (h0.e + s.e), w32 (h0.f + s.f), w32 (h0.g + s.g), w32 (h0.h + s.h)⟩

/-- Serialize 32-bit words back to big-endian bytes. -/
def wordsToBytes (ws : List Nat) : List Nat :=
  (ws.map (fun w => [(w >>> 24) % 256, (w >>> 16) % 256, (w >>> 8) % 256, w % 256])).flatten

/-- SHA-256 of a byte message. -/
def sha256Bytes (msg : List Nat) : List Nat :=
  let hf := (chunks64 (pad msg)).foldl compressBlock initH
  wordsToBytes [hf.a, hf.b, hf.c, hf.d, hf.e, hf.f, hf.g, hf.h]

/-- HMAC-SHA256 over byte lists, exactly the js-sha256 `sha256.hmac`
construction: keys longer than the 64-byte block are hashed first, then
zero-padded to the block size. -/
def hmacSha256 (key msg : List Nat) : List Nat :=
  let k0 := if 64 < key.length then sha256Bytes key else key
  let kp := k0 ++ List.replicate (64 - k0.length) 0
  sha256Bytes ((kp.map (fun b => b ^^^ 0x5c)) ++
    sha256Bytes ((kp.map (fun b => b ^^^ 0x36)) ++ msg))

/-- Lowercase hexadecimal digit. -/
def hexDigit (n : Nat) : Char :=
  if n < 10 then Char.ofNat (48 + n) else Char.ofNat (87 + n)

/-- Lowercase hexadecimal rendering of a byte list. -/
def bytesToHex (bs : List Nat) : String :=
  String.mk ((bs.map (fun b => [hexDigit (b / 16), hexDigit (b % 16)])).flatten)

/-- UTF-8 encoding of one character. -/
def utf8EncodeChar (c : Char) : List Nat :=
  let n := c.toNat
  if n < 0x80 then [n]
  else if n < 0x800 then
    [0xc0 ||| (n >>> 6), 0x80 ||| (n &&& 0x3f)]
  else if n < 0x10000 then
    [0xe0 ||| (n >>> 12), 0x80 ||| ((n >>> 6) &&& 0x3f), 0x80 ||| (n &&& 0x3f)]
  else
    [0xf0 ||| (n >>> 18), 0x80 ||| ((n >>> 12) &&& 0x3f),
     0x80 ||| ((n >>> 6) &&& 0x3f), 0x80 ||| (n &&& 0x3f)]

/-- UTF-8 bytes of a string. -/
def strBytes (s : String) : List Nat := (s.data.map utf8EncodeChar).flatten

/-- `sha256.hmac(key, msg)` of js-sha256: the lowercase hex digest of
HMAC-SHA256 with UTF-8 encoded key and message. -/
def hmacSha256Hex (key msg : String) : String :=
  bytesToHex (hmacSha256 (strBytes key) (strBytes msg))

/-! ## JSON values and JSON.stringify -/

/-- JSON values, with numbers restricted to the integers the endpoints use. -/
inductive Json where
  | null : Json
  | bool : Bool → Json
  | num : Int → Json
  | str : String → Json
  | arr : List Json → Json
  | obj : List (String × Json) → Json

/-- The escape sequence JSON.stringify produces for one character. -/
def escapeJsonChar (c : Char) : List Char :=
  if c = '"' then ['\\', '"']
  else if c = '\\' then ['\\', '\\']
  else if c = '\x08' then ['\\', 'b']
  else if c = '\t' then ['\\', 't']
  else if c = '\n' then ['\\', 'n']
  else if c = '\x0c' then ['\\', 'f']
  else if c = '\r' then ['\\', 'r']
  else if c.toNat < 32 then
    ['\\', 'u', '0', '0', hexDigit (c.toNat / 16), hexDigit (c.toNat % 16)]
  else [c]

/-- A string rendered as a JSON string literal with escapes. -/
def quoteJsonString (s : String) : String :=
  "\"" ++ String.mk ((s.data.map escapeJsonChar).flatten) ++ "\""

mutual

/-- `JSON.stringify` on the `Json` model. -/
def jsonStringify : Json → String
  | Json.null => "null"
  | Json.bool true => "true"
  | Json.bool false => "false"
  | Json.num n => toString n
  | Json.str s => quoteJsonString s
  | Json.arr xs => "[" ++ jsonStringifyArray xs ++ "]"
  | Json.obj fs => "\x7b" ++ jsonStringifyFields fs ++ "\x7d"

/-- Comma-separated serialization of array elements. -/
def jsonStringifyArray : List Json → String
  | [] => ""
  | [x] => jsonStringify x
  | x :: y :: rest => jsonStringify x ++ "," ++ jsonStringifyArray (y :: rest)

/-- Comma-separated serialization of object fields. -/
def jsonStringifyFields : List (String × Json) → String
  | [] => ""
  | [(k, v)] => quoteJsonString k ++ ":" ++ jsonStringify v
  | (k, v) :: f :: rest =>
      quoteJsonString k ++ ":" ++ jsonStringify v ++ "," ++ jsonStringifyFields (f :: rest)

end

/-! ## Transport data model (src/types, spec section 3) -/

/-- The two transports. -/
inductive TransportMode where
  | api : TransportMode
  | cli : TransportMode
deriving Repr, DecidableEq

/-- Per-call request options: an optional transport override and extra
headers, as in `RequestOptions` of the source types. -/
structure RequestOptions where
  transportMode : Option TransportMode := none
  headers : List (String × String) := []
deriving Repr, DecidableEq

/-- Descriptor types used by the endpoint files. -/
structure OrganizationDescriptor where
  organizationId : String
deriving Repr, DecidableEq

structure ProjectDescriptor where
  projectId : String
deriving Repr, DecidableEq

structure WebhookDescriptor where
  organizationId : String
  webhookId : String
deriving Repr, DecidableEq

/-- A share descriptor carries either an explicit id or a share URL. -/
structure ShareDescriptor where
  shareId : Option String := none
  url : Option String := none
deriving Repr, DecidableEq

/-- The arguments an endpoint method passes to `this.apiRequest`: URL,
method, resource-specified headers, and an optional body of type `β`.
The HTTP method defaults to GET when the call site passes none. -/
structure ApiRequest (β : Type) where
  url : String
  method : String := "GET"
  headers : List (String × String) := []
  body : Option β := none
deriving Repr, DecidableEq

/-! ## Projects endpoint (src: Projects.js) -/

namespace Projects

/-- The module-level headers constant of Projects.js. -/
def headers : List (String × String) := [("Abstract-Api-Version", "22")]

/-- The project fields the Projects endpoint reads or writes. `about` and
`description` are optional because a `NewProject` need not carry them. -/
structure ProjectData where
  name : String
  description : Option String := none
  about : Option String := none
  organizationId : String
  sectionId : Option String := none
deriving Repr, DecidableEq

/-- Result of a Projects call that takes a caller-supplied project object:
the request sent, and the caller's project object as it is after the call
(the JS code mutates the argument in place; the embedding passes the state
back explicitly). -/
structure ProjectCall where
  request : ApiRequest ProjectData
  project : ProjectData
deriving Repr, DecidableEq

/-- `Projects.info`: GET `projects/{projectId}` with the version headers. -/
def infoRequest (descriptor : ProjectDescriptor) : ApiRequest ProjectData :=
  { url := "projects/" ++ descriptor.projectId, headers := headers }

/-- Query-string pairs of `Projects.list`: `querystring.stringify` over the
spread descriptor plus `filter` and `sectionId`, which omits absent keys and
sorts keys alphabetically (filter, organizationId, sectionId). Percent
escaping of values is elided as no claim depends on it. -/
def listQueryPairs (descriptor : OrganizationDescriptor)
    (filter sectionId : Option String) : List (String × String) :=
  (match filter with
   | some f => [("filter", f)]
   | none => []) ++
  [("organizationId", descriptor.organizationId)] ++
  (match sectionId with
   | some s => [("sectionId", s)]
   | none => [])

def encodeQuery (ps : List (String × String)) : String :=
  String.intercalate "&" (ps.map (fun p => p.1 ++ "=" ++ p.2))

/-- `Projects.list`: GET `projects?{query}` with the version headers. -/
def listRequest (descriptor : OrganizationDescriptor)
    (filter sectionId : Option String) : ApiRequest ProjectData :=
  { url := "projects?" ++ encodeQuery (listQueryPairs descriptor filter sectionId),
    headers := headers }

/-- JavaScript truthiness of an optional string: absent and empty are falsy. -/
def jsTruthyStr : Option String → Bool
  | none => false
  | some s => !(s == "")

/-- The data object of the list response: `response.data.projects`. -/
structure ListResponseData where
  projects : List ProjectData
deriving Repr, DecidableEq

/-- The value `Projects.list` resolves to, given the response data and the
`sectionId` option: the source filters client-side only when `sectionId` is
truthy, else returns the full array (`wrap` returns its data argument,
decorated with response metadata, so the resolved value is the array). -/
def listResolve (respData : ListResponseData) (sectionId : Option String) :
    List ProjectData :=
  if jsTruthyStr sectionId then
    respData.projects.filter (fun project => project.sectionId == sectionId)
  else
    respData.projects

/-- `Projects.create`: first executes `project.about = project.description`
on the caller's object, then POSTs `projects` with the project as body and
no resource headers. -/
def create (descriptor : OrganizationDescriptor) (project : ProjectData) :
    ProjectCall :=
  let mutated := { project with about := project.description }
  { request := { url := "projects", method := "POST", body := some mutated },
    project := mutated }

/-- `Projects.update`: first executes `project.about = project.description`
on the caller's object, then PUTs `projects/{projectId}` with the project as
body and no resource headers. -/
def update (descriptor : ProjectDescriptor) (project : ProjectData) :
    ProjectCall :=
  let mutated := { project with about := project.description }
  { request := { url := "projects/" ++ descriptor.projectId, method := "PUT",
                 body := some mutated },
    project := mutated }

/-- `Projects.delete`: DELETE `projects/{projectId}`, no resource headers. -/
def deleteRequest (descriptor : ProjectDescriptor) : ApiRequest ProjectData :=
  { url := "projects/" ++ descriptor.projectId, method := "DELETE" }

/-- `Projects.archive`: PUT `projects/{projectId}/archive`, no headers. -/
def archiveRequest (descriptor : ProjectDescriptor) : ApiRequest ProjectData :=
  { url := "projects/" ++ descriptor.projectId ++ "/archive", method := "PUT" }

/-- `Projects.unarchive`: PUT `projects/{projectId}/unarchive`, no headers. -/
def unarchiveRequest (descriptor : ProjectDescriptor) : ApiRequest ProjectData :=
  { url := "projects/" ++ descriptor.projectId ++ "/unarchive", method := "PUT" }

end Projects

/-! ## Shares endpoint (src: Shares.js) -/

namespace Shares

/-- The module-level headers constant of Shares.js. -/
def headers : List (String × String) := [("Abstract-Api-Version", "13")]

/-- A share input object, kept as its JSON fields; `sha` is read by
`Shares.create` to populate `commitSha`. -/
structure ShareInput where
  fields : List (String × Json)

/-- The body of `Shares.create`: the spread of the descriptor and the share
input, with `commitSha` set from the input's `sha` field. -/
structure ShareCreateBody where
  organizationId : String
  shareInput : List (String × Json)
  commitSha : Option Json

/-- Modelled from the spec: `util/helpers.inferShareId` is not under src/.
It extracts the share id named by a descriptor (the explicit `shareId`, or
the trailing segment of the share `url`). -/
def inferShareId (descriptor : ShareDescriptor) : String :=
  match descriptor.shareId with
  | some sid => sid
  | none =>
    match descriptor.url with
    | some u => (u.splitOn "/").getLastD ""
    | none => ""

/-- `Shares.create`: POST `share_links` with the spread body and the version
headers. -/
def createRequest (descriptor : OrganizationDescriptor) (shareInput : ShareInput) :
    ApiRequest ShareCreateBody :=
  { url := "share_links", method := "POST", headers := headers,
    body := some
      { organizationId := descriptor.organizationId,
        shareInput := shareInput.fields,
        commitSha := (shareInput.fields.lookup "sha") } }

/-- `Shares.info`: GET `share_links/{inferShareId descriptor}` with the
version headers. -/
def infoRequest (descriptor : ShareDescriptor) : ApiRequest ShareCreateBody :=
  { url := "share_links/" ++ inferShareId descriptor, headers := headers }

end Shares

/-! ## Webhooks endpoint (src: Webhooks.js, class named Users in the source) -/

namespace Webhooks

/-- `Webhooks.create`: POST `organizations/{organizationId}/webhooks/subscribe`
with body `{subscription: webhook}` and no resource headers. -/
def createRequest (descriptor : OrganizationDescriptor) (webhook : Json) :
    ApiRequest Json :=
  { url := "organizations/" ++ descriptor.organizationId ++ "/webhooks/subscribe",
    method := "POST",
    body := some (Json.obj [("subscription", webhook)]) }

/-- `Webhooks.update`: POST `organizations/{organizationId}/webhooks/subscribe`
with body `{subscription: webhook}` and no resource headers — the same call
site shape as `create`. -/
def updateRequest (descriptor : OrganizationDescriptor) (webhook : Json) :
    ApiRequest Json :=
  { url := "organizations/" ++ descriptor.organizationId ++ "/webhooks/subscribe",
    method := "POST",
    body := some (Json.obj [("subscription", webhook)]) }

/-- The local computation of `Webhooks.verify`: compare the js-sha256 HMAC of
the JSON serialization of the payload under the signing key with the expected
signature, with JavaScript strict string equality. -/
def verify (payload : Json) (expectedSignature signingKey : String) : Bool :=
  hmacSha256Hex signingKey (jsonStringify payload) == expectedSignature

end Webhooks

/-! ## Dispatcher (spec sections 4.1 and 3; Endpoint.js is not under src/) -/

/-- Outcome of a dispatched call: the selected action's success value, the
selected action's typed error, or the configuration error raised when CLI
mode is requested with no CLI action supplied. -/
inductive DispatchOutcome (ε τ : Type) where
  | ok : τ → DispatchOutcome ε τ
  | err : ε → DispatchOutcome ε τ
  | configError : DispatchOutcome ε τ
deriving Repr, DecidableEq

/-- Names of the two closures an operation hands to the dispatcher. -/
inductive ActionTag where
  | httpAction : ActionTag
  | cliAction : ActionTag
deriving Repr, DecidableEq

/-- An already-run action result folded into a dispatch outcome. -/
def outcomeOf {ε τ : Type} : Except ε τ → DispatchOutcome ε τ
  | Except.ok v => DispatchOutcome.ok v
  | Except.error e => DispatchOutcome.err e

/-- Modelled from the spec: the effective transport mode of one call is the
per-call `transportMode` override when present, else the Client's configured
mode (spec section 4.1). -/
def effectiveMode (clientMode : TransportMode) (opts : RequestOptions) :
    TransportMode :=
  opts.transportMode.getD clientMode

/-- Modelled from the spec: `Endpoint.configureRequest` (the Dispatcher) is
not under src/. Per spec section 4.1 it selects exactly one of the supplied
actions by the effective mode, fails with `ConfigurationError` when CLI mode
is effective and no CLI action was supplied, and never falls back to the
other transport. Actions are modelled by their results; the returned tag
list records which actions were invoked. -/
def dispatch {ε τ : Type} (clientMode : TransportMode) (opts : RequestOptions)
    (httpAction : Except ε τ) (cliAction : Option (Except ε τ)) :
    DispatchOutcome ε τ × List ActionTag :=
  match effectiveMode clientMode opts with
  | TransportMode.api => (outcomeOf httpAction, [ActionTag.httpAction])
  | TransportMode.cli =>
    match cliAction with
    | some a => (outcomeOf a, [ActionTag.cliAction])
    | none => (DispatchOutcome.configError, [])

/-- Modelled from the spec: transport-agnostic operations — the spec names
signature verification — bypass transport selection entirely and always
resolve locally regardless of mode (spec sections 4.1 and 4.5). The local
computation of `Webhooks.verify` is the source's api closure. -/
def verifyCall (payload : Json) (expectedSignature signingKey : String)
    (opts : RequestOptions) : DispatchOutcome Unit Bool :=
  DispatchOutcome.ok (Webhooks.verify payload expectedSignature signingKey)

/-! ## HTTP rate-limit retry (spec section 4.2; the transport is not under src/) -/

/-- One HTTP response as the retry logic observes it: status code, optional
retry-after hint, and the body. -/
structure HttpResponse where
  status : Nat
  retryAfterHint : Option Nat := none
  body : String := ""
deriving Repr, DecidableEq

/-- The normalized envelope of a successful response. -/
structure ResponseEnvelope where
  payload : String
  status : Nat
deriving Repr, DecidableEq

/-- The failures the retry logic can surface. -/
inductive HttpFailure where
  | rateLimited : Nat → HttpFailure
  | httpStatus : Nat → String → HttpFailure
deriving Repr, DecidableEq

def isSuccess (r : HttpResponse) : Bool := 200 ≤ r.status && r.status < 300

/-- Modelled from the spec: the fixed default wait used when a 429 response
carries no retry-after hint. -/
def defaultRetryAfter : Nat := 1

def envelopeOf (r : HttpResponse) : ResponseEnvelope := ⟨r.body, r.status⟩

instance {ε τ : Type} [DecidableEq ε] [DecidableEq τ] : DecidableEq (Except ε τ) :=
  fun x y =>
    match x, y with
    | Except.ok a, Except.ok b =>
      if h : a = b then Decidable.isTrue (by rw [h])
      else Decidable.isFalse (by intro hc; cases hc; exact h rfl)
    | Except.ok _, Except.error _ => Decidable.isFalse (by intro hc; cases hc)
    | Except.error _, Except.ok _ => Decidable.isFalse (by intro hc; cases hc)
    | Except.error a, Except.error b =>
      if h : a = b then Decidable.isTrue (by rw [h])
      else Decidable.isFalse (by intro hc; cases hc; exact h rfl)

/-- Trace of one HTTP call under the retry policy: the outcome, how many
requests were issued, and the waits performed between them. -/
structure RetryTrace where
  outcome : Except HttpFailure ResponseEnvelope
  attempts : Nat
  waits : List Nat
deriving Repr, DecidableEq

/-- Modelled from the spec: the HTTPTransport rate-limit policy is not under
src/. Per spec section 4.2, a 2xx first response succeeds with no retry; a
429 first response waits the retry-after hint (or the fixed default) and
retries exactly once, returning the retry's envelope on success and
`RateLimited` if the retry also fails; any other status fails immediately.
`responses` gives the response to the n-th request issued. -/
def requestWithRetry (responses : Nat → HttpResponse) : RetryTrace :=
  let r0 := responses 0
  if isSuccess r0 then ⟨Except.ok (envelopeOf r0), 1, []⟩
  else if r0.status == 429 then
    let wait := r0.retryAfterHint.getD defaultRetryAfter
    let r1 := responses 1
    if isSuccess r1 then ⟨Except.ok (envelopeOf r1), 2, [wait]⟩
    else ⟨Except.error (HttpFailure.rateLimited wait), 2, [wait]⟩
  else ⟨Except.error (HttpFailure.httpStatus r0.status r0.body), 1, []⟩

/-! ## Client transport configuration (spec sections 3 and 4.4) -/

/-- Modelled from the spec: the Client's transport configuration, set once at
construction (spec section 3). -/
structure TransportConfig where
  mode : TransportMode
  apiUrl : Option String := none
  cliPath : Option String := none
  accessToken : Option String := none
  defaultHeaders : List (String × String) := []
deriving Repr, DecidableEq

/-- Modelled from the spec: transport selection for one call reads the
per-call override or the configured mode and leaves the configuration
untouched; the configuration is threaded explicitly so the absence of
mutation is visible (spec sections 3 and 4.1). -/
def selectTransport (config : TransportConfig) (opts : RequestOptions) :
    TransportMode × TransportConfig :=
  (effectiveMode config.mode opts, config)

/-- A sequence of calls against one Client: each call selects its transport
from the configuration state it observes and passes the state on. -/
def runCalls (config : TransportConfig) :
    List RequestOptions → List TransportMode × TransportConfig
  | [] => ([], config)
  | opts :: rest =>
    let sel := selectTransport config opts
    let next := runCalls sel.2 rest
    (sel.1 :: next.1, next.2)

/-! ## Theorems -/

/-- C1: `Webhooks.verify payload sig key` resolves to true exactly when `sig`
equals the lowercase hex HMAC-SHA256 of the JSON serialization of `payload`
under `key`; in particular, verifying a signature computed by the same
algorithm on the same inputs always returns true. -/
theorem webhooks_verify_iff_hmac (payload : Json) (sig key : String) :
    (Webhooks.verify payload sig key = true ↔
      sig = hmacSha256Hex key (jsonStringify payload)) ∧
    Webhooks.verify payload (hmacSha256Hex key (jsonStringify payload)) key
      = true := by
  constructor
  · unfold Webhooks.verify
    rw [beq_iff_eq]
    exact eq_comm
  · unfold Webhooks.verify
    exact beq_self_eq_true _

/-- C3: for every dispatched call exactly one of the supplied actions is
invoked — in effective API mode only the HTTP action runs (its outcome,
success or failure, is surfaced with no fallback), in effective CLI mode with
a CLI action supplied only the CLI action runs, and the invocation trace
never holds more than one action. -/
theorem dispatch_exactly_one_transport {ε τ : Type}
    (clientMode : TransportMode) (opts : RequestOptions)
    (httpResult : Except ε τ) (cliResult : Option (Except ε τ)) :
    (effectiveMode clientMode opts = TransportMode.api →
      dispatch clientMode opts httpResult cliResult =
        (outcomeOf httpResult, [ActionTag.httpAction])) ∧
    (∀ a, effectiveMode clientMode opts = TransportMode.cli →
      cliResult = some a →
      dispatch clientMode opts httpResult cliResult =
        (outcomeOf a, [ActionTag.cliAction])) ∧
    ((dispatch clientMode opts httpResult cliResult).2 = [ActionTag.httpAction] ∨
     (dispatch clientMode opts httpResult cliResult).2 = [ActionTag.cliAction] ∨
     (dispatch clientMode opts httpResult cliResult).2 = []) := by
  refine ⟨?_, ?_, ?_⟩
  · intro h
    unfold dispatch
    rw [h]
  · intro a h ha
    unfold dispatch
    rw [h, ha]
  · unfold dispatch
    cases effectiveMode clientMode opts with
    | api => simp
    | cli => cases cliResult <;> simp

/-- Witness for C3: with a failing HTTP action and an available CLI action,
API mode surfaces the HTTP failure and invokes only the HTTP action; the
per-call CLI override invokes only the CLI action. -/
theorem dispatch_exactly_one_transport_witness :
    dispatch TransportMode.api ⟨none, []⟩ (Except.error 5 : Except Nat Nat)
        (some (Except.ok 7)) =
      (DispatchOutcome.err 5, [ActionTag.httpAction]) ∧
    dispatch TransportMode.api ⟨some TransportMode.cli, []⟩
        (Except.error 5 : Except Nat Nat) (some (Except.ok 7)) =
      (DispatchOutcome.ok 7, [ActionTag.cliAction]) :=
  ⟨(dispatch_exactly_one_transport TransportMode.api ⟨none, []⟩
      (Except.error 5) (some (Except.ok 7))).1 rfl,
   (dispatch_exactly_one_transport TransportMode.api
      ⟨some TransportMode.cli, []⟩ (Except.error 5)
      (some (Except.ok 7))).2.1 (Except.ok 7) rfl rfl⟩

/-- C4: a first response of 429 leads to exactly one retry after waiting the
retry-after hint (or the fixed default when absent); a successful retry
yields its envelope after two requests and one wait, while a second 429
surfaces `RateLimited` after exactly two requests — never a third. -/
theorem http_429_single_retry (responses : Nat → HttpResponse)
    (h0 : (responses 0).status = 429) :
    (isSuccess (responses 1) = true →
      requestWithRetry responses =
        ⟨Except.ok (envelopeOf (responses 1)), 2,
         [(responses 0).retryAfterHint.getD defaultRetryAfter]⟩) ∧
    ((responses 1).status = 429 →
      requestWithRetry responses =
        ⟨Except.error (HttpFailure.rateLimited
            ((responses 0).retryAfterHint.getD defaultRetryAfter)), 2,
         [(responses 0).retryAfterHint.getD defaultRetryAfter]⟩) := by
  have hfail : isSuccess (responses 0) = false := by simp [isSuccess, h0]
  have h429 : ((responses 0).status == 429) = true := by simp [h0]
  constructor
  · intro hs
    simp [requestWithRetry, hfail, h429, hs]
  · intro h1
    have hfail1 : isSuccess (responses 1) = false := by simp [isSuccess, h1]
    simp [requestWithRetry, hfail, h429, hfail1]

/-- Witness for C4: a 429 with hint 3 followed by a 200 resolves to the
retry's envelope with one wait of 3; two 429 responses end in `RateLimited`
after exactly two attempts and the default wait. -/
theorem http_429_single_retry_witness :
    requestWithRetry
        (fun n => if n = 0 then ⟨429, some 3, "limited"⟩
                  else ⟨200, none, "okbody"⟩) =
      ⟨Except.ok ⟨"okbody", 200⟩, 2, [3]⟩ ∧
    requestWithRetry (fun _ => ⟨429, none, "limited"⟩) =
      ⟨Except.error (HttpFailure.rateLimited defaultRetryAfter), 2,
       [defaultRetryAfter]⟩ :=
  ⟨(http_429_single_retry
      (fun n => if n = 0 then ⟨429, some 3, "limited"⟩
                else ⟨200, none, "okbody"⟩) rfl).1 rfl,
   (http_429_single_retry (fun _ => ⟨429, none, "limited"⟩) rfl).2 rfl⟩

/-- C5 counterexample: the request issued by `Projects.create` carries no
Abstract-Api-Version header at all, so it is false that every Projects
operation carries the value "22". -/
theorem projects_create_missing_version_header :
    List.lookup "Abstract-Api-Version"
        (Projects.create ⟨"org1"⟩
          ⟨"proj", none, none, "org1", none⟩).request.headers ≠
      some "22" := by decide

/-- C5 amended: `Projects.info` and `Projects.list` carry the fixed
Abstract-Api-Version "22" and both Shares operations carry "13", but
`Projects.create`, `update`, `delete`, `archive` and `unarchive` send no
Abstract-Api-Version header. -/
theorem version_header_per_resource (pd : ProjectDescriptor)
    (od : OrganizationDescriptor) (filter sectionId : Option String)
    (project : Projects.ProjectData) (sd : ShareDescriptor)
    (si : Shares.ShareInput) :
    List.lookup "Abstract-Api-Version" (Projects.infoRequest pd).headers
      = some "22" ∧
    List.lookup "Abstract-Api-Version"
      (Projects.listRequest od filter sectionId).headers = some "22" ∧
    List.lookup "Abstract-Api-Version" (Shares.createRequest od si).headers
      = some "13" ∧
    List.lookup "Abstract-Api-Version" (Shares.infoRequest sd).headers
      = some "13" ∧
    List.lookup "Abstract-Api-Version"
      (Projects.create od project).request.headers = none ∧
    List.lookup "Abstract-Api-Version"
      (Projects.update pd project).request.headers = none ∧
    List.lookup "Abstract-Api-Version" (Projects.deleteRequest pd).headers
      = none ∧
    List.lookup "Abstract-Api-Version" (Projects.archiveRequest pd).headers
      = none ∧
    List.lookup "Abstract-Api-Version" (Projects.unarchiveRequest pd).headers
      = none := by
  refine ⟨?_, ?_, ?_, ?_, ?_, ?_, ?_, ?_, ?_⟩ <;> rfl

/-- C6: the signature-verification operation resolves locally for every
payload, signature, key and request options — including options forcing the
CLI transport — to the boolean of the local comparison, and never fails with
the configuration error. -/
theorem webhooks_verify_transport_agnostic (payload : Json)
    (sig key : String) (opts : RequestOptions) :
    verifyCall payload sig key opts =
      DispatchOutcome.ok (Webhooks.verify payload sig key) ∧
    verifyCall payload sig key opts ≠ DispatchOutcome.configError ∧
    verifyCall payload sig key ⟨some TransportMode.cli, []⟩ =
      DispatchOutcome.ok (Webhooks.verify payload sig key) := by
  simp [verifyCall]

/-- C7: across any sequence of calls against one Client, each call's
transport selection is its own override when present and the Client's
configured mode otherwise — independent of every other call — and the
Client's transport configuration (mode, base URL, CLI path, token, default
headers) is unchanged afterwards. -/
theorem transport_override_per_call (config : TransportConfig)
    (calls : List RequestOptions) :
    runCalls config calls =
      (calls.map (fun opts => opts.transportMode.getD config.mode), config) := by
  induction calls with
  | nil => rfl
  | cons opts rest ih =>
    simp [runCalls, selectTransport, effectiveMode, ih]

/-- C8: `Projects.create` and `Projects.update` overwrite the caller-supplied
project's `about` field with its `description` field before dispatch; the
dispatched body is that mutated object and the mutation is what the caller
observes after the call. -/
theorem projects_mutation_visible (od : OrganizationDescriptor)
    (pd : ProjectDescriptor) (p q : Projects.ProjectData) :
    (Projects.create od p).project.about = p.description ∧
    (Projects.update pd q).project.about = q.description ∧
    (Projects.create od p).request.body = some (Projects.create od p).project ∧
    (Projects.update pd q).request.body = some (Projects.update pd q).project :=
  ⟨rfl, rfl, rfl, rfl⟩

/-- C9: `Webhooks.update` issues exactly the request `Webhooks.create`
issues — same URL, method, headers and body — for every organization
descriptor and webhook value. -/
theorem webhooks_update_equals_create (od : OrganizationDescriptor)
    (w : Json) :
    Webhooks.updateRequest od w = Webhooks.createRequest od w := rfl

/-- C10 counterexample: with sectionId the empty string — a supplied
sectionId option — `Projects.list` resolves to the full projects array, here
containing a project whose sectionId is "x", not to the projects whose
sectionId equals the given value. -/
theorem projects_list_empty_section_counterexample :
    Projects.listResolve ⟨[⟨"a", none, none, "org", some "x"⟩]⟩ (some "") =
      [⟨"a", none, none, "org", some "x"⟩] ∧
    (⟨"a", none, none, "org", some "x"⟩ : Projects.ProjectData).sectionId ≠
      some "" := by
  refine ⟨rfl, ?_⟩
  decide

/-- C10 amended: with a nonempty sectionId, `Projects.list` resolves to
exactly the response projects whose sectionId equals the given value; with
sectionId absent — or the empty string, which JavaScript truthiness treats as
absent — it resolves to the full projects array. -/
theorem projects_list_section_filter (respData : Projects.ListResponseData)
    (s : String) (hs : s ≠ "") (p : Projects.ProjectData) :
    (p ∈ Projects.listResolve respData (some s) ↔
      p ∈ respData.projects ∧ p.sectionId = some s) ∧
    Projects.listResolve respData none = respData.projects ∧
    Projects.listResolve respData (some "") = respData.projects := by
  have ht : Projects.jsTruthyStr (some s) = true := by
    simp [Projects.jsTruthyStr, hs]
  refine ⟨?_, rfl, rfl⟩
  simp [Projects.listResolve, ht, List.mem_filter]

/-- Sample list response for the C10 witness. -/
def sampleListResponse : Projects.ListResponseData :=
  ⟨[⟨"a", none, none, "org", some "x"⟩, ⟨"b", none, none, "org", none⟩]⟩

/-- Witness for C10 at a concrete response and the nonempty sectionId "x". -/
theorem projects_list_section_filter_witness :
    ((⟨"a", none, none, "org", some "x"⟩ : Projects.ProjectData) ∈
        Projects.listResolve sampleListResponse (some "x") ↔
      (⟨"a", none, none, "org", some "x"⟩ : Projects.ProjectData) ∈
        sampleListResponse.projects ∧
      (⟨"a", none, none, "org", some "x"⟩ :
          Projects.ProjectData).sectionId = some "x") ∧
    Projects.listResolve sampleListResponse none =
      sampleListResponse.projects ∧
    Projects.listResolve sampleListResponse (some "") =
      sampleListResponse.projects :=
  projects_list_section_filter sampleListResponse "x" (by decide)
    ⟨"a", none, none, "org", some "x"⟩

end AbstractSdk
